import Mathlib

/-!
Verification of the structural source-patch scripts of the Nubi.Agent
repository.  The Python scripts under `src/` are embedded shallowly:
Python strings become `String`, `readlines` buffers become `List String`,
`str.replace` / substring tests / `rstrip` are reimplemented below with
Python semantics, and each script body becomes a pure Lean function from
the input buffer to the (optionally written) output buffer plus the
message the script prints.
-/

namespace NubiPatch

/-- The open delimiter character of the brace pair used by every script. -/
def openB : Char := '\x7b'

/-- The close delimiter character of the brace pair used by every script. -/
def closeB : Char := '\x7d'

/-- Python `str.rstrip()` whitespace set (ASCII part): space, tab, newline,
carriage return, vertical tab, form feed. -/
def isPyWs (c : Char) : Bool :=
  c = ' ' || c = '\t' || c = '\n' || c = '\r' || c = '\x0b' || c = '\x0c'

/-- Python `s.rstrip()`: remove trailing whitespace characters. -/
def pyRstrip (s : String) : String :=
  ⟨((s.toList.reverse).dropWhile isPyWs).reverse⟩

/-- `leadMatch p l` is true when the character list `p` is an initial
segment of `l` (used to embed Python substring / endswith tests). -/
def leadMatch : List Char → List Char → Bool
  | [], _ => true
  | _ :: _, [] => false
  | a :: as, b :: bs => a == b && leadMatch as bs

/-- `hasSub p l`: the character list `p` occurs contiguously inside `l`.
Embeds Python's `p in l` substring test. -/
def hasSub (p : List Char) : List Char → Bool
  | [] => leadMatch p []
  | c :: rest => leadMatch p (c :: rest) || hasSub p rest

/-- Python `pat in s` on strings. -/
def strContains (s pat : String) : Bool := hasSub pat.toList s.toList

/-- Python `s.endswith(pat)`. -/
def strEndsWith (s pat : String) : Bool :=
  leadMatch pat.toList.reverse s.toList.reverse

/-- Outcome of one script run: the buffer written back to the file
(`none` when the script did not write) and the message it printed. -/
structure ScriptRun where
  written : Option (List String)
  message : String
  deriving DecidableEq

/-! ## fix-templates.py (the Depth Scanner and Block Relocator) -/

/-- The anchor pattern of the first search loop of `fix-templates.py`
(line 8): `'  templates: {' in line`. -/
def anchorP (l : String) : Bool := strContains l "  templates: \x7b"

/-- The export-line pattern of `fix-templates.py` (line 19) and
`fix-nubi-final.py` (line 8): `'export default nubiCharacter;' in line`. -/
def exportP (l : String) : Bool := strContains l "export default nubiCharacter;"

/-- The tail predicate of `fix-templates.py` line 61:
`'delete' in line or '//' in line`. -/
def tailP (l : String) : Bool := strContains l "delete" || strContains l "//"

/-- The three header lines appended by `fix-templates.py` lines 32-34. -/
def headerLines : List String :=
  ["\n",
   "// Export templates for use in other modules\n",
   "export const nubiTemplates = \x7b\n"]

/-- The extraction loop of `fix-templates.py` lines 39-53, running over the
lines from `templates_start` on, with state `in_templates` and the integer
`brace_count`.  A line containing `'templates: {'` resets the count to 1 and
is skipped (`continue`); otherwise, when `in_templates` holds, the count of
`'{'` characters on the line is added and the count of `'}'` characters
subtracted, and the line is kept; the loop stops right after keeping the
line that brings the count to exactly 0. -/
def extractLoop : List String → Bool → Int → List String
  | [], _, _ => []
  | l :: ls, inT, bc =>
    if strContains l "templates: \x7b" then extractLoop ls true 1
    else if inT then
      let bc2 : Int := bc + (l.toList.count openB : Int) - (l.toList.count closeB : Int)
      if bc2 = 0 then [l] else l :: extractLoop ls true bc2
    else extractLoop ls false bc

/-- The final-line rewrite of `fix-templates.py` lines 56-57: when the last
kept line does not end with `";\n"`, it is replaced by its `rstrip()` with
`";\n"` appended. -/
def fixLast (ls : List String) : List String :=
  match ls.getLast? with
  | none => ls
  | some l =>
    if strEndsWith l ";\n" then ls
    else ls.dropLast ++ [pyRstrip l ++ ";\n"]

/-- The tail collection loop of `fix-templates.py` lines 60-62. -/
def collectTail (ls : List String) : List String := ls.filter tailP

/-- `fix-templates.py` as a whole, lines 6-71.  Python truthiness is kept:
an index equal to 0 fails the `if templates_start:` / `if export_line:`
tests exactly as `None` does, and the success branch requires
`templates_start > export_line`. -/
def fixTemplates (lines : List String) : ScriptRun :=
  match lines.findIdx? anchorP with
  | none => ⟨none, "Could not find templates definition"⟩
  | some ts =>
    if ts = 0 then ⟨none, "Could not find templates definition"⟩
    else
      match lines.findIdx? exportP with
      | none => ⟨none, "Export/templates order seems OK"⟩
      | some el =>
        if el = 0 then ⟨none, "Export/templates order seems OK"⟩
        else if el < ts then
          ⟨some (fixLast (lines.take (el+1) ++ headerLines ++
                           extractLoop (lines.drop ts) false 0) ++
                 collectTail (lines.drop (el+1))),
           "Fixed templates structure"⟩
        else ⟨none, "Export/templates order seems OK"⟩

/-! ## fix-nubi-final.py -/

/-- The import line inserted by `fix-nubi-final.py` line 20. -/
def importLine : String := "import \x7b nubiTemplates \x7d from \"./nubi-templates\";\n"

/-- The tail predicate of `fix-nubi-final.py` line 31:
`'delete' in line and 'nubiCharacter' in line`. -/
def nubiP (l : String) : Bool := strContains l "delete" && strContains l "nubiCharacter"

/-- The tail collection loop of `fix-nubi-final.py` lines 30-32. -/
def nubiTail (ls : List String) : List String := ls.filter nubiP

/-- `fix-nubi-final.py` lines 6-37.  When the export line is not found (or
found at index 0, falsy in Python) the script neither writes nor prints. -/
def fixNubiFinal (lines : List String) : ScriptRun :=
  match lines.findIdx? exportP with
  | none => ⟨none, ""⟩
  | some el =>
    if el = 0 then ⟨none, ""⟩
    else
      let clean0 := lines.take (el+1) ++ ["\n"]
      let clean1 := clean0.take 1 ++ [importLine] ++ clean0.drop 1
      let clean2 := clean1 ++
        ["// Export templates for use in other modules\n",
         "export \x7b nubiTemplates \x7d from \"./nubi-templates\";\n",
         "\n"]
      ⟨some (clean2 ++ nubiTail (lines.drop (el+1))), "Cleaned up nubi-character.ts"⟩

/-! ## Python str.replace -/

/-- Fueled worker for Python `str.replace`: scan left to right, replace
each non-overlapping occurrence of `pat` by `repl`, continue after the
replaced region.  One unit of fuel is spent per step and every step
consumes at least one character, so fuel equal to the input length
computes the full replacement.  (The scripts only call it with a
non-empty pattern; an empty pattern makes it the identity here.) -/
def replaceAllAux (pat repl : List Char) : Nat → List Char → List Char
  | _, [] => []
  | 0, s => s
  | n+1, c :: cs =>
    if pat.isEmpty then c :: cs
    else if leadMatch pat (c :: cs) then
      repl ++ replaceAllAux pat repl n (List.drop (pat.length - 1) cs)
    else c :: replaceAllAux pat repl n cs

/-- Python `s.replace(pat, repl)` (all occurrences). -/
def pyReplace (s pat repl : String) : String :=
  ⟨replaceAllAux pat.toList repl.toList s.toList.length s.toList⟩

/-! ## fix-raid-system.py (second script) and comprehensive-fix.py -/

/-- The pattern of the view-insertion replace of `fix-raid-system.py`
lines 6-9. -/
def viewInsPat : String := "quote: number;"

/-- The replacement of the view-insertion replace of `fix-raid-system.py`
lines 6-9; note that it contains the pattern itself. -/
def viewInsRepl : String := "quote: number;\n        view: number;"

/-- The view-insertion Substitute of `fix-raid-system.py` lines 6-9. -/
def viewIns (s : String) : String := pyReplace s viewInsPat viewInsRepl

/-- Triple-quoted pattern of `comprehensive-fix.py` lines 13-15. -/
def sharePat : String := "            share: 1,\n            quote: 3,\n        \x7d,"

/-- Triple-quoted replacement of `comprehensive-fix.py` lines 16-19. -/
def shareRepl : String :=
  "            share: 1,\n            quote: 3,\n            view: 1,\n        \x7d,"

/-- The plain `str.replace` chain of the raid stage of
`comprehensive-fix.py`, lines 12-30 (the `re.sub` of lines 33-37 is a
regex operation on a pattern containing `\x7b\x7b`, not embedded here;
it is independent of the plain replaces). -/
def raidStageContent (c : String) : String :=
  let c1 := pyReplace c sharePat shareRepl
  let c2 := pyReplace c1 "if (text.toLowerCase()" "if (text && text.toLowerCase()"
  let c3 := pyReplace c2 ".user?.id || \"\"" ".userId || \"\""
  pyReplace c3 "\"userId\":" "\"user\":"

/-- The raid stage of `comprehensive-fix.py` with its observable output:
the transformed content and the messages printed (line 6 prints the fixed
progress string unconditionally; no replacement count is ever printed). -/
def raidStage (c : String) : String × List String :=
  (raidStageContent c, ["Fixing nubi-raid-system.ts..."])

/-! ## comprehensive-fix.py error-handler line replacements -/

/-- The guarded line-assignment pattern of `comprehensive-fix.py` lines
145-150: `if len(lines) > k+1: lines[k] = s` (each guard constant in the
script is one more than the 0-based index it protects). -/
def setLineIfLong (lines : List String) (k : Nat) (s : String) : List String :=
  if k + 1 < lines.length then lines.set k s else lines

/-- Replacement text of `comprehensive-fix.py` line 146. -/
def ehLine34 : String :=
  "      logger.debug(`[$\x7bserviceName\x7d] Executing $\x7bmethodName\x7d - $\x7bJSON.stringify(\x7b correlationId, context \x7d)\x7d`);\n"

/-- Replacement text of `comprehensive-fix.py` line 148. -/
def ehLine37 : String :=
  "      logger.debug(`[$\x7bserviceName\x7d] $\x7bmethodName\x7d completed in $\x7bduration\x7dms - $\x7bJSON.stringify(\x7b correlationId \x7d)\x7d`);\n"

/-- Replacement text of `comprehensive-fix.py` line 150. -/
def ehLine107 : String :=
  "    logger.error(JSON.stringify(\x7b error: serviceError.message, stack: serviceError.error?.stack, context, correlationId \x7d));\n"

/-- The error-handler stage of `comprehensive-fix.py`, lines 145-150:
three guarded line assignments, applied in order. -/
def errorHandlerFix (lines : List String) : List String :=
  setLineIfLong (setLineIfLong (setLineIfLong lines 33 ehLine34) 36 ehLine37) 106 ehLine107

/-! ## Definitions following the spec's words (for comparison only) -/

/-- Modelled from the spec: the scan of section 4.1 processes delimiters
left-to-right within each line, and the block ends at the offset of the
close delimiter that brings the depth to exactly 0.  `lrCloseOffset cs d`
is that offset in the character stream `cs` starting from depth `d`, or
`none` when the depth never returns to 0 (the spec's `NotFound`). -/
def lrCloseOffset : List Char → Int → Option Nat
  | [], _ => none
  | c :: cs, d =>
    let d2 : Int := if c = openB then d + 1 else if c = closeB then d - 1 else d
    if c = closeB ∧ d2 = 0 then some 0
    else (lrCloseOffset cs d2).map (· + 1)

/-- Modelled from the spec: the rewrite rule of section 4.2, "if extracted
content's last non-whitespace character is a separator, replace it with a
terminator". -/
def sepToTermSpec (s : String) : String :=
  match (pyRstrip s).toList.reverse with
  | ',' :: rest => ⟨(';' :: rest).reverse⟩
  | _ => pyRstrip s

end NubiPatch

/-! ## Helper lemmas -/

namespace NubiPatch

/-- The extraction loop only ever emits lines of its input, in input
order, each occurrence at most once. -/
lemma extractLoop_sublist (ls : List String) : ∀ (b : Bool) (c : Int),
    List.Sublist (extractLoop ls b c) ls := by
  induction ls with
  | nil => intro b c; simp [extractLoop]
  | cons l ls ih =>
    intro b c
    simp only [extractLoop]
    split
    · exact (ih true 1).cons l
    · split
      · split
        · exact (List.nil_sublist ls).cons₂ l
        · exact (ih true _).cons₂ l
      · exact (ih false c).cons l

/-- A fueled replace on a buffer that does not contain the pattern is the
identity, whatever the fuel. -/
lemma replaceAllAux_id (p r : List Char) : ∀ (n : Nat) (s : List Char),
    hasSub p s = false → replaceAllAux p r n s = s := by
  intro n
  induction n with
  | zero => intro s h; cases s <;> simp [replaceAllAux]
  | succ n ih =>
    intro s h
    cases s with
    | nil => simp [replaceAllAux]
    | cons c cs =>
      rw [hasSub, Bool.or_eq_false_iff] at h
      have hp : p.isEmpty = false := by
        cases p with
        | nil => simp [leadMatch] at h
        | cons a as => rfl
      simp only [replaceAllAux, hp, h.1]
      simp [ih cs h.2]

/-- Python `replace` with a pattern that does not occur in the string is
the identity. -/
lemma pyReplace_id (s pat repl : String) (h : strContains s pat = false) :
    pyReplace s pat repl = s := by
  unfold strContains at h
  unfold pyReplace
  rw [replaceAllAux_id _ _ _ _ h]
  cases s; rfl

/-- `toList` distributes over string append. -/
lemma toList_append (a b : String) : (a ++ b).toList = a.toList ++ b.toList := by
  cases a; cases b; rfl

/-- A list is an initial segment of itself extended on the right. -/
lemma leadMatch_append_self (p : List Char) : ∀ q, leadMatch p (p ++ q) = true := by
  induction p with
  | nil => intro q; rfl
  | cons a as ih => intro q; simp [leadMatch, ih]

/-- `leadMatch` ignores a common leading segment. -/
lemma leadMatch_append_left (x : List Char) : ∀ p r,
    leadMatch (x ++ p) (x ++ r) = leadMatch p r := by
  induction x with
  | nil => intro p r; rfl
  | cons a as ih => intro p r; simp [leadMatch, ih]

/-- A string extended with `t` ends with `p ++ t` whenever it ended
with `p`. -/
lemma strEndsWith_mono (r t p : String) (h : strEndsWith r p = true) :
    strEndsWith (r ++ t) (p ++ t) = true := by
  unfold strEndsWith at h ⊢
  rw [toList_append, toList_append, List.reverse_append, List.reverse_append,
    leadMatch_append_left]
  exact h

/-- Appending a string makes the result end with it. -/
lemma strEndsWith_append (a b : String) : strEndsWith (a ++ b) b = true := by
  unfold strEndsWith
  rw [toList_append, List.reverse_append]
  exact leadMatch_append_self _ _

/-- A string that does not end in `";\n"` is never of the form
`pyRstrip l ++ ";\n"`. -/
lemma neRstripSemi (s : String) (h : strEndsWith s ";\n" = false) :
    ∀ l : String, s ≠ pyRstrip l ++ ";\n" := by
  intro l heq
  rw [heq, strEndsWith_append] at h
  cases h

/-- Characterisation of a successful `fix-templates.py` run: the write
happens exactly in the branch of lines 29-67, and the written buffer is
the kept prefix, the three header lines, the extracted block with its
final line rewritten, and the collected tail. -/
lemma fixTemplates_success (lines out : List String)
    (h : (fixTemplates lines).written = some out) :
    ∃ ts el, lines.findIdx? anchorP = some ts ∧ lines.findIdx? exportP = some el ∧
      ts ≠ 0 ∧ el ≠ 0 ∧ el < ts ∧
      out = fixLast (lines.take (el+1) ++ headerLines ++
              extractLoop (lines.drop ts) false 0) ++
            collectTail (lines.drop (el+1)) := by
  unfold fixTemplates at h
  split at h
  · exact Option.noConfusion h
  next ts hts =>
    split at h
    · exact Option.noConfusion h
    next h0 =>
      split at h
      · exact Option.noConfusion h
      next el hel =>
        split at h
        · exact Option.noConfusion h
        next h1 =>
          split at h
          next h2 =>
            exact ⟨ts, el, hts, hel, h0, h1, h2, (Option.some.inj h).symm⟩
          · exact Option.noConfusion h

/-- Every run of `fix-templates.py` that is not the success branch writes
nothing. -/
lemma fixTemplates_none_or (lines : List String) :
    (fixTemplates lines).written = none ∨
    (fixTemplates lines).message = "Fixed templates structure" := by
  unfold fixTemplates
  repeat' split
  all_goals first | exact Or.inl rfl | exact Or.inr rfl

/-- Every run of `fix-nubi-final.py` that is not the success branch writes
nothing. -/
lemma fixNubiFinal_none_or (lines : List String) :
    (fixNubiFinal lines).written = none ∨
    (fixNubiFinal lines).message = "Cleaned up nubi-character.ts" := by
  unfold fixNubiFinal
  repeat' split
  all_goals first | exact Or.inl rfl | exact Or.inr rfl

/-- Any member of `fixLast ls` is a member of `ls` or the rstrip-semicolon
rewrite of one. -/
lemma mem_fixLast (ls : List String) (s : String) (h : s ∈ fixLast ls) :
    s ∈ ls ∨ ∃ l, l ∈ ls ∧ s = pyRstrip l ++ ";\n" := by
  unfold fixLast at h
  cases hl : ls.getLast? with
  | none => rw [hl] at h; exact Or.inl h
  | some l =>
    rw [hl] at h
    change s ∈ (if strEndsWith l ";\n" = true then ls
      else ls.dropLast ++ [pyRstrip l ++ ";\n"]) at h
    by_cases hend : strEndsWith l ";\n" = true
    · rw [if_pos hend] at h; exact Or.inl h
    · rw [if_neg hend] at h
      rcases List.mem_append.mp h with h1 | h2
      · exact Or.inl ((List.dropLast_sublist ls).subset h1)
      · have hm : l ∈ ls := by
          obtain ⟨h2', heq⟩ := List.mem_getLast?_eq_getLast
            (show l ∈ ls.getLast? by rw [hl]; rfl)
          rw [heq]; exact List.getLast_mem h2'
        simp only [List.mem_singleton] at h2
        exact Or.inr ⟨l, hm, h2⟩

/-- `fixLast` on a list with an explicit final element. -/
lemma fixLast_concat (ks : List String) (l : String) :
    fixLast (ks ++ [l]) =
      if strEndsWith l ";\n" = true then ks ++ [l]
      else ks ++ [pyRstrip l ++ ";\n"] := by
  unfold fixLast
  rw [List.getLast?_concat, List.dropLast_concat]

/-- `fixLast` on a list with explicit final element that does not end in
`";\n"`: the final element is rstripped and `";\n"` appended. -/
lemma fixLast_concat_not (ks : List String) (l : String)
    (h : strEndsWith l ";\n" = false) :
    fixLast (ks ++ [l]) = ks ++ [pyRstrip l ++ ";\n"] := by
  rw [fixLast_concat, if_neg (by simp [h])]

/-- `fixLast` never disturbs a proper prefix in front of a non-empty
rest. -/
lemma fixLast_append_keep (A B : List String) (hB : B ≠ []) :
    ∃ C, fixLast (A ++ B) = A ++ C := by
  rcases List.eq_nil_or_concat B with rfl | ⟨L, b, rfl⟩
  · exact absurd rfl hB
  · rw [List.concat_eq_append, ← List.append_assoc, fixLast_concat]
    by_cases hend : strEndsWith b ";\n" = true
    · exact ⟨L ++ [b], by rw [if_pos hend, List.append_assoc]⟩
    · exact ⟨L ++ [pyRstrip b ++ ";\n"], by rw [if_neg hend, List.append_assoc]⟩

end NubiPatch

/-! ## Concrete buffers used by counterexamples and witnesses -/

namespace NubiPatch

/-- A balanced buffer: export line, a junk line, then the templates block. -/
def bufA : List String :=
  ["const c = 1;\n", "export default nubiCharacter;\n", "junk\n",
   "  templates: \x7b\n", "  a\n", "\x7d\n"]

/-- `bufA` without the junk line. -/
def bufB : List String :=
  ["const c = 1;\n", "export default nubiCharacter;\n",
   "  templates: \x7b\n", "  a\n", "\x7d\n"]

/-- The common output of `fix-templates.py` on `bufA` and on `bufB`. -/
def outB : List String :=
  ["const c = 1;\n", "export default nubiCharacter;\n", "\n",
   "// Export templates for use in other modules\n",
   "export const nubiTemplates = \x7b\n", "  a\n", "\x7d;\n"]

/-- An unbalanced buffer: after the anchor, two opens and no close, so the
nesting depth never returns to 0 before the end of the buffer. -/
def bufU : List String :=
  ["const c = 1;\n", "export default nubiCharacter;\n",
   "  templates: \x7b\n", "  a: \x7b\n", "  b\n"]

/-- What `fix-templates.py` writes on `bufU`. -/
def outU : List String :=
  ["const c = 1;\n", "export default nubiCharacter;\n", "\n",
   "// Export templates for use in other modules\n",
   "export const nubiTemplates = \x7b\n", "  a: \x7b\n", "  b;\n"]

end NubiPatch

/-! ## The claims -/

namespace NubiPatch

/-- C1 (counterexample): on `bufU` the anchor matches and the depth never
returns to 0 before buffer end (the spec-modelled left-to-right scan of the
post-anchor text finds no depth-0 close delimiter), yet the scan does not
report `NotFound`: the script extracts a block running to the end of the
buffer and writes output. -/
theorem c1_scan_cex :
    lrCloseOffset ("  a: \x7b\n  b\n").toList 1 = none ∧
    fixTemplates bufU = ⟨some outU, "Fixed templates structure"⟩ := by
  constructor
  · decide
  · decide

/-- C1 (amended): when no line after the anchor contains a close delimiter
(so the depth never returns to 0), the extraction loop reports nothing: it
consumes every remaining line that does not itself contain the anchor
pattern, i.e. the block silently extends to the end of the buffer. -/
theorem c1_scan_consumes (ls : List String) (bc : Int) (h1 : 1 ≤ bc)
    (h2 : ∀ l ∈ ls, l.toList.count closeB = 0) :
    extractLoop ls true bc =
      ls.filter (fun l => !(strContains l "templates: \x7b")) := by
  induction ls generalizing bc with
  | nil => simp [extractLoop]
  | cons l ls ih =>
    have hl := h2 l (List.mem_cons_self l ls)
    have hrest : ∀ l' ∈ ls, l'.toList.count closeB = 0 :=
      fun l' hm => h2 l' (List.mem_cons_of_mem l hm)
    by_cases ha : strContains l "templates: \x7b" = true
    · simp only [extractLoop, ha, if_true, List.filter, Bool.not_true]
      exact ih 1 le_rfl hrest
    · have ha' : strContains l "templates: \x7b" = false := by
        simpa using ha
      have hz : bc + (l.toList.count openB : Int) - (l.toList.count closeB : Int) ≠ 0 := by
        rw [hl]
        have : (0 : Int) ≤ (l.toList.count openB : Int) := Int.ofNat_nonneg _
        omega
      simp only [extractLoop, ha', Bool.false_eq_true, if_false, if_true, hz,
        List.filter, Bool.not_false]
      rw [hl]
      simp only [Nat.cast_zero, sub_zero]
      rw [ih (bc + (l.toList.count openB : Int)) (by
        have : (0 : Int) ≤ (l.toList.count openB : Int) := Int.ofNat_nonneg _
        omega) hrest]

/-- C1 (witness for the amended theorem): a concrete close-free tail. -/
theorem c1_scan_consumes_w :
    extractLoop ["  x\n", "  y\n"] true 1 =
      List.filter (fun l => !(strContains l "templates: \x7b")) ["  x\n", "  y\n"] :=
  c1_scan_consumes ["  x\n", "  y\n"] 1 (by decide) (by decide)

/-- C2 (counterexample): the buffer `viewIns "quote: number;"` is the
output of one application of the view-insertion Substitute of
`fix-raid-system.py` lines 6-9, and re-applying the same operation changes
it again (the replacement contains the pattern), so re-running the
sequence is not a no-op. -/
theorem c2_idem_cex :
    viewIns (viewIns "quote: number;") ≠ viewIns "quote: number;" := by decide

/-- C2 (amended): a `Substitute` whose pattern does not occur in the buffer
is a no-op on re-application, but this does not extend to every operation:
the view-insertion Substitute's own output still contains its pattern,
which is why the pipeline is not idempotent. -/
theorem c2_idem_amended (s pat repl : String) (h : strContains s pat = false) :
    pyReplace s pat repl = s ∧
    strContains (viewIns "quote: number;") viewInsPat = true :=
  ⟨pyReplace_id s pat repl h, by decide⟩

/-- C2 (witness for the amended theorem). -/
theorem c2_idem_amended_w :
    pyReplace "abc" "zz" "w" = "abc" ∧
    strContains (viewIns "quote: number;") viewInsPat = true :=
  c2_idem_amended "abc" "zz" "w" (by decide)

/-- C4 (counterexample): with the code's scan, the buffer whose post-anchor
lines are `"} {"` and `"}"` yields a block of both full lines, although
left-to-right processing (the spec-modelled `lrCloseOffset`) finds the
close delimiter that brings the depth to 0 at offset 0 of the post-anchor
text: the code counts all opens of a line before all closes and tests zero
only at line ends, so the block does not end at that close delimiter. -/
theorem c4_depth_cex :
    extractLoop ["  templates: \x7b\n", "\x7d \x7b\n", "\x7d\n"] false 0 =
      ["\x7d \x7b\n", "\x7d\n"] ∧
    lrCloseOffset ("\x7d \x7b\n\x7d\n").toList 1 = some 0 := by
  constructor
  · decide
  · decide

/-- C4 (amended): the depth bookkeeping is line-granular: for each line all
open delimiters are added and then all close delimiters subtracted, zero is
tested only after the whole line, and the block ends with (and includes)
the full line whose net count brings the depth to 0; moreover the scan only
ever emits whole input lines, never a line cut at a close delimiter. -/
theorem c4_depth_amended (l : String) (ls : List String) (bc : Int)
    (ha : strContains l "templates: \x7b" = false)
    (hz : bc + (l.toList.count openB : Int) - (l.toList.count closeB : Int) = 0) :
    extractLoop (l :: ls) true bc = [l] ∧
    ∀ (ls2 : List String) (b : Bool) (c : Int),
      List.Sublist (extractLoop ls2 b c) ls2 := by
  constructor
  · unfold extractLoop
    rw [if_neg (by simp [ha]), if_pos rfl]
    show (if bc + ((l.toList.count openB : Int)) - ((l.toList.count closeB : Int)) = 0
          then [l]
          else l :: extractLoop ls true
            (bc + ((l.toList.count openB : Int)) - ((l.toList.count closeB : Int)))) = [l]
    rw [if_pos hz]
  · exact fun ls2 b c => extractLoop_sublist ls2 b c

/-- C4 (witness for the amended theorem): the zero crossing is mid-line
(after the two closes, before the trailing open), yet the whole line is the
block's last line. -/
theorem c4_depth_amended_w :
    extractLoop ["x\x7d\x7d \x7b\n", "rest\n"] true 1 = ["x\x7d\x7d \x7b\n"] ∧
    ∀ (ls2 : List String) (b : Bool) (c : Int),
      List.Sublist (extractLoop ls2 b c) ls2 :=
  c4_depth_amended "x\x7d\x7d \x7b\n" ["rest\n"] 1 (by decide) (by decide)

/-- C5 (counterexample): on an extracted block whose last non-whitespace
character is the separator `','`, the code does not replace the separator
with a terminator (which the spec-modelled `sepToTermSpec` would produce):
it strips trailing whitespace and appends `";\n"` after the comma. -/
theorem c5_term_cex :
    fixLast ["  y: 2,\n"] = ["  y: 2,;\n"] ∧
    sepToTermSpec "  y: 2,\n" = "  y: 2;" ∧
    ("  y: 2,;\n" : String) ≠ "  y: 2;\n" := by
  refine ⟨by decide, by decide, by decide⟩

/-- C5 (amended): whenever the last line does not already end with `";\n"`,
the rewrite strips its trailing whitespace and appends `";\n"`; a trailing
separator is retained, not replaced, so the result ends in `",;\n"` when
the last non-whitespace character was a separator. -/
theorem c5_term_amended (ks : List String) (l : String)
    (h1 : strEndsWith l ";\n" = false)
    (h2 : strEndsWith (pyRstrip l) "," = true) :
    fixLast (ks ++ [l]) = ks ++ [pyRstrip l ++ ";\n"] ∧
    strEndsWith (pyRstrip l ++ ";\n") ",;\n" = true := by
  constructor
  · exact fixLast_concat_not ks l h1
  · have := strEndsWith_mono (pyRstrip l) ";\n" "," h2
    have heq : ("," ++ ";\n" : String) = ",;\n" := by decide
    rwa [heq] at this

/-- C5 (witness for the amended theorem). -/
theorem c5_term_amended_w :
    fixLast ([] ++ ["  y: 2,\n"]) = [] ++ [pyRstrip "  y: 2,\n" ++ ";\n"] ∧
    strEndsWith (pyRstrip "  y: 2,\n" ++ ";\n") ",;\n" = true :=
  c5_term_amended [] "  y: 2,\n" (by decide) (by decide)

end NubiPatch

namespace NubiPatch

/-- C3: whenever a relocation run fails (any branch other than the success
branch, i.e. the script does not announce a successful fix), the script
writes nothing, so the buffer on disk stays byte-for-byte unchanged;
this holds for both relocation scripts. -/
theorem c3_fail_unwritten (lines lines2 : List String)
    (h1 : (fixTemplates lines).message ≠ "Fixed templates structure")
    (h2 : (fixNubiFinal lines2).message ≠ "Cleaned up nubi-character.ts") :
    (fixTemplates lines).written = none ∧ (fixNubiFinal lines2).written = none := by
  constructor
  · rcases fixTemplates_none_or lines with h | h
    · exact h
    · exact absurd h h1
  · rcases fixNubiFinal_none_or lines2 with h | h
    · exact h
    · exact absurd h h2

/-- C3 (witness): on a buffer without the anchor and without the export
line, both scripts leave the file untouched. -/
theorem c3_fail_unwritten_w :
    (fixTemplates ["const x = 1;\n"]).written = none ∧
    (fixNubiFinal ["const x = 1;\n"]).written = none :=
  c3_fail_unwritten ["const x = 1;\n"] ["const x = 1;\n"] (by decide) (by decide)

/-- C6 (counterexample): the guarded line replacement of
`comprehensive-fix.py` never fails with an error: on a 3-line buffer the
replacement at 1-based index 5 (the claim's Example 4) returns the
unchanged buffer as an ordinary value, and even on a 5-line buffer the
replacement at 1-based index 5 is silently skipped although the claim
says a buffer with as many lines as the index must be replaced. -/
theorem c6_line_cex :
    setLineIfLong ["a", "b", "c"] 4 "x" = ["a", "b", "c"] ∧
    setLineIfLong ["a", "b", "c", "d", "e"] 4 "x" = ["a", "b", "c", "d", "e"] := by
  refine ⟨by decide, by decide⟩

/-- C6 (amended): the line replacement at 0-based index `k` (1-based index
`k+1`) never signals an error: it is a silent no-op unless the buffer has
more than `k+1` lines, in which case exactly the line at index `k` is
replaced; consequently the whole error-handler stage is the identity on
buffers of at most 34 lines. -/
theorem c6_line_amended (lines : List String) (k : Nat) (s : String) :
    (lines.length ≤ k + 1 → setLineIfLong lines k s = lines) ∧
    (k + 1 < lines.length →
      (setLineIfLong lines k s)[k]? = some s ∧
      ∀ j, j ≠ k → (setLineIfLong lines k s)[j]? = lines[j]?) ∧
    (lines.length ≤ 34 → errorHandlerFix lines = lines) := by
  refine ⟨?_, ?_, ?_⟩
  · intro h; unfold setLineIfLong; rw [if_neg (by omega)]
  · intro h
    unfold setLineIfLong
    rw [if_pos h]
    constructor
    · simp only [List.getElem?_set_self']
      rw [List.getElem?_eq_getElem (by omega : k < lines.length)]
      simp
    · intro j hj
      rw [List.getElem?_set_ne (fun hk => hj hk.symm)]
  · intro h
    have h1 : setLineIfLong lines 33 ehLine34 = lines := by
      unfold setLineIfLong; rw [if_neg (by omega)]
    have h2 : setLineIfLong lines 36 ehLine37 = lines := by
      unfold setLineIfLong; rw [if_neg (by omega)]
    have h3 : setLineIfLong lines 106 ehLine107 = lines := by
      unfold setLineIfLong; rw [if_neg (by omega)]
    unfold errorHandlerFix
    rw [h1, h2, h3]

/-- C6 (witness for the amended theorem). -/
theorem c6_line_amended_w :
    setLineIfLong ["a"] 3 "x" = ["a"] ∧
    (setLineIfLong ["a", "b"] 0 "x")[0]? = some "x" ∧
    errorHandlerFix ["a"] = ["a"] :=
  ⟨(c6_line_amended ["a"] 3 "x").1 (by decide),
   ((c6_line_amended ["a", "b"] 0 "x").2.1 (by decide)).1,
   (c6_line_amended ["a"] 3 "x").2.2 (by decide)⟩

/-- C7 (counterexample): relocation is lossy, hence not invertible: the
two distinct well-formed buffers `bufA` and `bufB` (differing in the junk
line after the export) produce identical script results, with identical
extracted text, so no reverse re-insertion of the extracted text can
reproduce both originals byte-for-byte; the round-trip law fails. -/
theorem c7_round_cex :
    fixTemplates bufA = fixTemplates bufB ∧ bufA ≠ bufB := by
  refine ⟨by decide, by decide⟩

/-- C7 (amended): the round-trip law does not hold (relocation discards
lines after the export line that match neither the block nor the tail
predicate); what relocation does preserve verbatim is the whole buffer up
to and including the export line, as a prefix of the written output. -/
theorem c7_round_amended (lines out : List String) (el : Nat)
    (hw : (fixTemplates lines).written = some out)
    (hel : lines.findIdx? exportP = some el) :
    ∃ rest, out = lines.take (el+1) ++ rest := by
  obtain ⟨ts, el', hts, hel', _, _, _, hout⟩ := fixTemplates_success lines out hw
  rw [hel] at hel'
  obtain rfl : el = el' := Option.some.inj hel'
  rw [List.append_assoc] at hout
  obtain ⟨C, hC⟩ := fixLast_append_keep (lines.take (el+1))
    (headerLines ++ extractLoop (lines.drop ts) false 0) (by simp [headerLines])
  exact ⟨C ++ collectTail (lines.drop (el+1)), by rw [hout, hC, List.append_assoc]⟩

/-- C7 (witness for the amended theorem). -/
theorem c7_round_amended_w :
    ∃ rest, outB = bufB.take (1+1) ++ rest :=
  c7_round_amended bufB outB 1 (by decide) (by decide)

/-- C8 (counterexample): the raid-fix Substitute stage prints the same
fixed message list whether its patterns match or not, and reports no
count: on a buffer where every pattern has zero matches the content is
returned unchanged with no warning, and on a buffer where a replacement
does happen the observable messages are identical — zero-match
substitutions are silently ignored, not surfaced. -/
theorem c8_warn_cex :
    raidStage "const x = 1;" = ("const x = 1;", ["Fixing nubi-raid-system.ts..."]) ∧
    (raidStage sharePat).1 ≠ sharePat ∧
    (raidStage sharePat).2 = ["Fixing nubi-raid-system.ts..."] := by
  refine ⟨by decide, by decide, by decide⟩

/-- C8 (amended): `Substitute` operations report nothing — the message
component of the raid stage is a constant independent of the content — and
only the relocation script surfaces a scan failure, through its fixed
printed message. -/
theorem c8_warn_amended (c : String) (lines : List String)
    (h : lines.findIdx? anchorP = none) :
    (raidStage c).2 = ["Fixing nubi-raid-system.ts..."] ∧
    fixTemplates lines = ⟨none, "Could not find templates definition"⟩ := by
  refine ⟨rfl, ?_⟩
  unfold fixTemplates
  rw [h]

/-- C8 (witness for the amended theorem). -/
theorem c8_warn_amended_w :
    (raidStage "z").2 = ["Fixing nubi-raid-system.ts..."] ∧
    fixTemplates ["z"] = ⟨none, "Could not find templates definition"⟩ :=
  c8_warn_amended "z" ["z"] (by decide)

/-- C9: the tail-preservation loops of both relocation scripts return a
sub-sequence of their input lines — original textual order, each line
occurrence kept at most once even though the predicate is a disjunction —
and in a successful `fix-templates.py` run the collected tail is appended
verbatim after the relocated declaration, at the very end of the output. -/
theorem c9_tail_order (ls lines out : List String) (el : Nat)
    (hw : (fixTemplates lines).written = some out)
    (hel : lines.findIdx? exportP = some el) :
    List.Sublist (collectTail ls) ls ∧ List.Sublist (nubiTail ls) ls ∧
    ∃ body, out = body ++ collectTail (lines.drop (el+1)) := by
  refine ⟨List.filter_sublist ls, List.filter_sublist ls, ?_⟩
  obtain ⟨ts, el', hts, hel', _, _, _, hout⟩ := fixTemplates_success lines out hw
  rw [hel] at hel'
  obtain rfl : el = el' := Option.some.inj hel'
  exact ⟨_, hout⟩

/-- C9 (witness). -/
theorem c9_tail_order_w :
    List.Sublist (collectTail ["junk\n", "// keep\n"]) ["junk\n", "// keep\n"] ∧
    List.Sublist (nubiTail ["junk\n", "// keep\n"]) ["junk\n", "// keep\n"] ∧
    ∃ body, outB = body ++ collectTail (bufB.drop (1+1)) :=
  c9_tail_order ["junk\n", "// keep\n"] bufB outB 1 (by decide) (by decide)

/-- C10: a successful relocation permanently discards every line after the
export line that is not part of the extracted block and does not match the
tail predicate: any such line (one that moreover does not textually
coincide with a kept prefix line, a header line, or an rstrip-semicolon
rewrite) is absent from the written output. -/
theorem c10_discard (lines out : List String) (ts el : Nat) (s : String)
    (hw : (fixTemplates lines).written = some out)
    (hts : lines.findIdx? anchorP = some ts)
    (hel : lines.findIdx? exportP = some el)
    (_hafter : s ∈ lines.drop (el+1))
    (hnb : s ∉ extractLoop (lines.drop ts) false 0)
    (hnp : tailP s = false)
    (hnpre : s ∉ lines.take (el+1))
    (hnh : s ∉ headerLines)
    (hsemi : strEndsWith s ";\n" = false) :
    s ∉ out := by
  intro hs
  obtain ⟨ts', el', hts', hel', _, _, _, hout⟩ := fixTemplates_success lines out hw
  rw [hts] at hts'
  obtain rfl : ts = ts' := Option.some.inj hts'
  rw [hel] at hel'
  obtain rfl : el = el' := Option.some.inj hel'
  rw [hout] at hs
  rcases List.mem_append.mp hs with h | h
  · rcases mem_fixLast _ _ h with h | ⟨l, _, hleq⟩
    · rcases List.mem_append.mp h with h | h
      · rcases List.mem_append.mp h with h | h
        · exact hnpre h
        · exact hnh h
      · exact hnb h
    · exact neRstripSemi s hsemi l hleq
  · have := (List.mem_filter.mp h).2
    rw [hnp] at this
    cases this

/-- C10 (witness): the junk line of `bufA` is after the export line, not
part of the extracted block, fails the tail predicate, and is indeed
absent from the written output. -/
theorem c10_discard_w : "junk\n" ∉ outB :=
  c10_discard bufA outB 3 1 "junk\n" (by decide) (by decide) (by decide)
    (by decide) (by decide) (by decide) (by decide) (by decide) (by decide)

end NubiPatch
